import Mathlib

/-!
Verification of the two-stage research pipeline in `src/app.py`.

The source is a Streamlit page. The reimplementable core modelled here is:
  * the credential gate `api_keys_valid` (lines 56-64),
  * the cached client constructor `initialize_groq` (lines 112-114),
  * the body of `main` (lines 118-199): the empty-key early return, the
    button-click handler that issues the stage-1 question-generation request,
    displays the questions, builds the stage-2 research prompt from the topic
    and the stage-1 text, issues the stage-2 request with temperature 0.6,
    displays the analysis, the empty-topic warning, and the catch-all
    exception handler that turns any failure into one `st.error` notice.

The inference endpoint (`groq_client.chat.completions.create`) is modelled as
a function from the request payload to either the returned message text or an
error string (the stringified exception).  Streamlit display calls
(`st.write`, `st.warning`, `st.error`) are recorded as a trace of events.
-/

namespace GroqDeepseek

/-- One chat message, as in the `messages` list of
`groq_client.chat.completions.create` (src/app.py lines 149-157, 185-190). -/
structure Message where
  role : String
  content : String
deriving DecidableEq, Repr

/-- The payload of one `chat.completions.create` call: the `messages`
argument, the `model` argument and the optional `temperature` argument
(absent in the stage-1 call, `0.6` in the stage-2 call).  The `auth` field
records the api key the issuing client was constructed with: it travels with
the HTTP request (authorization header) but is not part of the chat payload. -/
structure ChatRequest where
  auth : String
  messages : List Message
  model : String
  temperature : Option ℚ
deriving DecidableEq, Repr

/-- The external inference endpoint: one request attempt returns either the
text `completion.choices[0].message.content` or fails with the message of the
raised exception. -/
def Endpoint : Type := ChatRequest → Except String String

/-- One Streamlit display event issued by `main`. -/
inductive Display where
  | write : String → Display
  | warning : String → Display
  | error : String → Display
deriving DecidableEq, Repr

/-- `{questions, analysis}`: the two response texts of a successful run. -/
structure PipelineResult where
  questions : String
  analysis : String
deriving DecidableEq, Repr

/-- The outcome of one execution of `main`'s body: a complete result, a
failure caught by the `except` handler (carrying `str(e)`), the empty-topic
validation branch, or the silent return when no api key is set (line 121). -/
inductive RunOutcome where
  | result : PipelineResult → RunOutcome
  | failure : String → RunOutcome
  | emptyTopic : RunOutcome
  | notReady : RunOutcome
deriving DecidableEq, Repr

/-- src/app.py lines 56-60: `api_keys_valid` starts `True` and is set to
`False` when `not groq_api_key`, i.e. exactly when the string is empty
(Python truthiness of `str`). -/
def api_keys_valid (groq_api_key : String) : Bool :=
  if groq_api_key.isEmpty then false else true

/-- The fixed model identifier used by both requests (lines 158, 191). -/
def modelId : String := "deepseek-r1-distill-llama-70b"

/-- The stage-1 prompt (lines 152-156): the two adjacent f-string pieces
concatenated, with `query` interpolated at the end. -/
def stage1Prompt (query : String) : String :=
  "Suggest a list of 5 most important questions to research on the topic: "
    ++ query

/-- The fixed instruction tail of the stage-2 prompt (lines 167-181):
everything after the interpolated `query` and `questions`. -/
def analysisTemplate : String :=
  "Please provide a comprehensive research analysis following these steps:\n\n"
    ++ "1. For each question:\n"
    ++ "   - Use chain-of-thought reasoning to break down the problem\n"
    ++ "   - Consider multiple perspectives and approaches\n"
    ++ "   - Provide evidence and logical arguments\n"
    ++ "   - Draw connections between related concepts\n\n"
    ++ "2. After analyzing each question:\n"
    ++ "   - Identify common themes and patterns\n"
    ++ "   - Discuss potential implications\n"
    ++ "   - Suggest areas for further investigation\n\n"
    ++ "3. Conclude with:\n"
    ++ "   - A synthesis of key findings\n"
    ++ "   - Practical applications or recommendations\n"
    ++ "   - Critical evaluation of the analysis\n\n"
    ++ "Please structure your response clearly and use logical reasoning throughout."

/-- `research_prompt` (lines 165-182): the topic and the full stage-1
`questions` text interpolated into the fixed template. -/
def research_prompt (query questions : String) : String :=
  "Based on these questions about " ++ query ++ ":\n" ++ questions ++ "\n\n"
    ++ analysisTemplate

/-- The stage-1 request (lines 148-159): one user message, the fixed model,
no temperature argument. -/
def stage1Request (clientKey query : String) : ChatRequest :=
  { auth := clientKey
    messages := [⟨"user", stage1Prompt query⟩]
    model := modelId
    temperature := none }

/-- The stage-2 request (lines 184-193): one user message carrying
`research_prompt`, the same fixed model, `temperature=0.6`. -/
def stage2Request (clientKey query questions : String) : ChatRequest :=
  { auth := clientKey
    messages := [⟨"user", research_prompt query questions⟩]
    model := modelId
    temperature := some (0.6 : ℚ) }

/-- The `st.error` text of the catch-all handler (line 199):
`f"發生錯誤：{str(e)}"`. -/
def errorText (e : String) : String := "發生錯誤：" ++ e

/-- The button-click body of `main` (lines 145-199) for a client constructed
with `clientKey`: the empty-topic check, the stage-1 call, the display of the
questions, the stage-2 call, the display of the analysis, and the surrounding
`try/except` that turns the first failing call into a single `st.error`.
Returns the list of endpoint requests issued, the display trace, and the
run's outcome. -/
def runPipeline (clientKey query : String) (endpoint : Endpoint) :
    List ChatRequest × List Display × RunOutcome :=
  if query.isEmpty then
    ([], [.warning "請輸入研究主題"], .emptyTopic)
  else
    let req1 := stage1Request clientKey query
    match endpoint req1 with
    | .error e => ([req1], [.error (errorText e)], .failure e)
    | .ok questions =>
      let req2 := stage2Request clientKey query questions
      match endpoint req2 with
      | .error e =>
          ([req1, req2],
           [.write "### 研究問題：", .write questions, .error (errorText e)],
           .failure e)
      | .ok analysis =>
          ([req1, req2],
           [.write "### 研究問題：", .write questions,
            .write "### 研究結果：", .write analysis],
           .result ⟨questions, analysis⟩)

/-- Process-wide state of the `@st.cache_resource` cache on
`initialize_groq`: the memoised client, represented by the api key it was
constructed with (line 114 reads `os.environ["GROQ_API_KEY"]`). -/
structure ProcState where
  cachedClient : Option String
deriving DecidableEq, Repr

/-- `initialize_groq` (lines 112-114) under `@st.cache_resource`: the first
call constructs `groq.Groq(api_key=os.environ["GROQ_API_KEY"])` and caches
it; every later call in the process returns the cached client unchanged,
whatever the environment variable now holds. -/
def initialize_groq (env_key : String) (s : ProcState) : String × ProcState :=
  match s.cachedClient with
  | some c => (c, s)
  | none => (env_key, ⟨some env_key⟩)

/-- One execution of `main` (lines 118-199): the api-key early return
(line 121), then `initialize_groq` (line 125), then the button-click body. -/
def mainStep (groq_api_key query : String) (endpoint : Endpoint)
    (s : ProcState) :
    (List ChatRequest × List Display × RunOutcome) × ProcState :=
  if groq_api_key.isEmpty then
    (([], [], .notReady), s)
  else
    let c := initialize_groq groq_api_key s
    (runPipeline c.1 query endpoint, c.2)

/-- `t` occurs verbatim (as a contiguous substring) in `s`. -/
def ContainsVerbatim (s t : String) : Prop := ∃ l r, s = l ++ t ++ r

/-- The texts of the `st.error` notices of a display trace. -/
def errorNotices (ds : List Display) : List String :=
  ds.filterMap fun d => match d with | .error e => some e | _ => none

/-- A stub endpoint that answers the stage-1 request (no temperature) with
`q` and the stage-2 request (temperature set) with `a`. -/
def stubEndpoint (q a : String) : Endpoint := fun r =>
  if r.temperature = none then .ok q else .ok a

/-- A stub endpoint whose every request fails with message `e`. -/
def failEndpoint (e : String) : Endpoint := fun _ => .error e

/-- A stub endpoint that answers the stage-1 request with `q` and fails the
stage-2 request with message `e`. -/
def failStage2 (q e : String) : Endpoint := fun r =>
  if r.temperature = none then .ok q else .error e

/-- Every request issued by a run is issued through the client the run was
given: its `auth` field is the client's key. -/
theorem runPipeline_auth (c t : String) (ep : Endpoint) :
    ((runPipeline c t ep).1.all fun r => r.auth == c) = true := by
  by_cases ht : t.isEmpty = true
  · simp [runPipeline, ht]
  · rcases h1 : ep (stage1Request c t) with e | qs
    · simp [runPipeline, ht, h1]
      simp [stage1Request]
    · rcases h2 : ep (stage2Request c t qs) with e | a <;>
        simp [runPipeline, ht, h1, h2] <;> simp [stage1Request, stage2Request]

/-- Claim C1: for every non-empty topic `t`, if the endpoint answers the
stage-1 request with `q` and the stage-2 request with `a`, the run's outcome
is exactly the pair `{questions := q, analysis := a}`, exactly those two
requests are issued, and the stage-2 request's prompt string contains both
the topic and the stage-1 text verbatim as substrings. -/
theorem c1_run_returns_pair (k t q a : String) (ep : Endpoint)
    (ht : t.isEmpty = false)
    (h1 : ep (stage1Request k t) = .ok q)
    (h2 : ep (stage2Request k t q) = .ok a) :
    (runPipeline k t ep).2.2 = .result ⟨q, a⟩ ∧
    (runPipeline k t ep).1 = [stage1Request k t, stage2Request k t q] ∧
    (stage2Request k t q).messages = [⟨"user", research_prompt t q⟩] ∧
    ContainsVerbatim (research_prompt t q) t ∧
    ContainsVerbatim (research_prompt t q) q := by
  refine ⟨?_, ?_, rfl, ?_, ?_⟩
  · simp [runPipeline, ht, h1, h2]
  · simp [runPipeline, ht, h1, h2]
  · exact ⟨"Based on these questions about ",
      ":\n" ++ q ++ "\n\n" ++ analysisTemplate,
      by simp [research_prompt, String.append_assoc]⟩
  · exact ⟨"Based on these questions about " ++ t ++ ":\n",
      "\n\n" ++ analysisTemplate,
      by simp [research_prompt, String.append_assoc]⟩

/-- Witness for C1 at topic `"T"` with a stub endpoint answering `"Q"` then
`"A"`. -/
theorem c1_witness :
    (runPipeline "k" "T" (stubEndpoint "Q" "A")).2.2 = .result ⟨"Q", "A"⟩ ∧
    (runPipeline "k" "T" (stubEndpoint "Q" "A")).1 =
      [stage1Request "k" "T", stage2Request "k" "T" "Q"] ∧
    (stage2Request "k" "T" "Q").messages =
      [⟨"user", research_prompt "T" "Q"⟩] ∧
    ContainsVerbatim (research_prompt "T" "Q") "T" ∧
    ContainsVerbatim (research_prompt "T" "Q") "Q" :=
  c1_run_returns_pair "k" "T" "Q" "A" (stubEndpoint "Q" "A") rfl rfl rfl

/-- Claim C2: for every non-empty topic, if the stage-1 request fails, the
endpoint is called exactly once in that run (the stage-2 request is never
issued) and the outcome is the failure carrying stage 1's cause. -/
theorem c2_stage1_failure_short_circuits (k t e : String) (ep : Endpoint)
    (ht : t.isEmpty = false)
    (h1 : ep (stage1Request k t) = .error e) :
    (runPipeline k t ep).1 = [stage1Request k t] ∧
    (runPipeline k t ep).2.2 = .failure e := by
  constructor <;> simp [runPipeline, ht, h1]

/-- Witness for C2 at topic `"T"` with an endpoint that always fails. -/
theorem c2_witness :
    (runPipeline "k" "T" (failEndpoint "boom")).1 = [stage1Request "k" "T"] ∧
    (runPipeline "k" "T" (failEndpoint "boom")).2.2 = .failure "boom" :=
  c2_stage1_failure_short_circuits "k" "T" "boom" (failEndpoint "boom") rfl rfl

/-- Claim C5 (as proved): in every run, the list of `(model, temperature)`
pairs of the issued requests is a prefix of
`[(modelId, none), (modelId, some 0.6)]`: both requests use the same fixed
model identifier, the stage-1 request never carries a temperature override,
and the stage-2 request always carries temperature `0.6`. -/
theorem c5_model_and_temperature (k t : String) (ep : Endpoint) :
    (runPipeline k t ep).1.map (fun r => (r.model, r.temperature)) = [] ∨
    (runPipeline k t ep).1.map (fun r => (r.model, r.temperature)) =
      [(modelId, (none : Option ℚ))] ∨
    (runPipeline k t ep).1.map (fun r => (r.model, r.temperature)) =
      [(modelId, (none : Option ℚ)), (modelId, some (0.6 : ℚ))] := by
  by_cases ht : t.isEmpty = true
  · left; simp [runPipeline, ht]
  · rcases h1 : ep (stage1Request k t) with e | qs
    · right; left
      simp [runPipeline, ht, h1]
      simp [stage1Request]
    · right; right
      rcases h2 : ep (stage2Request k t qs) with e | a <;>
        simp [runPipeline, ht, h1, h2] <;> simp [stage1Request, stage2Request]

/-- Claim C7: for every empty topic, no request is issued and the validation
warning is the only display: the whole run is
`([], [warning], emptyTopic)`. -/
theorem c7_empty_topic_warning_only (k : String) (ep : Endpoint) :
    runPipeline k "" ep = ([], [.warning "請輸入研究主題"], .emptyTopic) := rfl

/-- Counterexample to claim C3 as stated: in a concrete run whose stage-1
call succeeds with `"Q1"` and whose stage-2 call fails, the outcome is a
failure, yet the stage-1 questions text HAS been delivered to the
presentation layer — `st.write(questions)` at src/app.py line 162 runs
before stage 2 — so the questions are not absent from what the user sees. -/
theorem c3_counterexample :
    (runPipeline "k" "T" (failStage2 "Q1" "boom")).2.2 = .failure "boom" ∧
    Display.write "Q1" ∈ (runPipeline "k" "T" (failStage2 "Q1" "boom")).2.1 := by
  constructor
  · rfl
  · decide

/-- Claim C3 as amended: for every non-empty topic, if stage 1 succeeds with
`qs` and stage 2 fails with `e`, the run's outcome is a failure — no
`PipelineResult` and no analysis text is produced — but the already-obtained
questions text was written to the display before the failure, so the trace
is exactly `[write header, write qs, error notice]`. -/
theorem c3_stage2_failure_yields_failure_only (k t qs e : String)
    (ep : Endpoint) (ht : t.isEmpty = false)
    (h1 : ep (stage1Request k t) = .ok qs)
    (h2 : ep (stage2Request k t qs) = .error e) :
    (runPipeline k t ep).2.2 = .failure e ∧
    (runPipeline k t ep).2.1 =
      [.write "### 研究問題：", .write qs, .error (errorText e)] := by
  constructor <;> simp [runPipeline, ht, h1, h2]

/-- Witness for the amended C3 at topic `"T"` with a stub endpoint whose
stage-2 call fails. -/
theorem c3_witness :
    (runPipeline "k" "T" (failStage2 "Q1" "boom")).2.2 = .failure "boom" ∧
    (runPipeline "k" "T" (failStage2 "Q1" "boom")).2.1 =
      [.write "### 研究問題：", .write "Q1", .error (errorText "boom")] :=
  c3_stage2_failure_yields_failure_only "k" "T" "Q1" "boom"
    (failStage2 "Q1" "boom") rfl rfl rfl

/-- Counterexample to claim C4 as stated: the whitespace-only credential
`" "` is non-empty, so Python's `not groq_api_key` is false: the gate
reports ready and a run with that credential does issue requests to the
endpoint. -/
theorem c4_counterexample :
    api_keys_valid " " = true ∧
    (mainStep " " "topic" (stubEndpoint "Q" "A") ⟨none⟩).1.1 ≠ [] := by
  constructor
  · rfl
  · decide

/-- Claim C4 as amended: for the empty credential string the gate reports
not-ready and a run issues no request and produces no display: `main`
returns at line 121 before `initialize_groq` and before the pipeline. -/
theorem c4_empty_credential_gate (t : String) (ep : Endpoint)
    (s : ProcState) :
    api_keys_valid "" = false ∧
    mainStep "" t ep s = (([], [], .notReady), s) := by
  constructor
  · rfl
  · rfl

/-- Claim C6: every run ends in exactly one of three states — a complete
result with no error notice, a single error notice whose text is the fixed
header followed by the underlying cause verbatim (`errorText e`), or the
empty-topic branch with no error notice.  No failure escapes the
`try/except` of `main`. -/
theorem c6_single_failure_report (k t : String) (ep : Endpoint) :
    (∃ res, (runPipeline k t ep).2.2 = .result res ∧
        errorNotices (runPipeline k t ep).2.1 = []) ∨
    (∃ e, (runPipeline k t ep).2.2 = .failure e ∧
        errorNotices (runPipeline k t ep).2.1 = [errorText e]) ∨
    ((runPipeline k t ep).2.2 = .emptyTopic ∧
        errorNotices (runPipeline k t ep).2.1 = []) := by
  by_cases ht : t.isEmpty = true
  · right; right
    constructor <;> simp [runPipeline, ht, errorNotices]
  · rcases h1 : ep (stage1Request k t) with e | qs
    · right; left
      exact ⟨e, by simp [runPipeline, ht, h1], by
        simp [runPipeline, ht, h1, errorNotices]⟩
    · rcases h2 : ep (stage2Request k t qs) with e | a
      · right; left
        exact ⟨e, by simp [runPipeline, ht, h1, h2], by
          simp [runPipeline, ht, h1, h2, errorNotices]⟩
      · left
        exact ⟨⟨qs, a⟩, by simp [runPipeline, ht, h1, h2], by
          simp [runPipeline, ht, h1, h2, errorNotices]⟩

/-- Claim C8: the `@st.cache_resource` cache makes `initialize_groq`
construct the client at most once per process.  The first call captures the
credential then in the environment; any later call — with any other
credential `k2` — returns that same cached client and leaves the cache
unchanged, and every request of a later `main` run is issued through the
originally constructed client. -/
theorem c8_client_memoized (k1 k2 t : String) (ep : Endpoint) :
    initialize_groq k1 ⟨none⟩ = (k1, ⟨some k1⟩) ∧
    initialize_groq k2 ⟨some k1⟩ = (k1, ⟨some k1⟩) ∧
    (mainStep k2 t ep ⟨some k1⟩).2 = ⟨some k1⟩ ∧
    ((mainStep k2 t ep ⟨some k1⟩).1.1.all fun r => r.auth == k1) = true := by
  refine ⟨rfl, rfl, ?_, ?_⟩
  · by_cases hk : k2.isEmpty = true <;> simp [mainStep, hk, initialize_groq]
  · by_cases hk : k2.isEmpty = true
    · simp [mainStep, hk]
    · simpa [mainStep, hk, initialize_groq] using runPipeline_auth k1 t ep

/-- Claim C9: a topic that is non-empty but all whitespace is NOT rejected:
the pipeline runs, issuing the stage-1 request first, and the untrimmed
topic is substituted verbatim into the stage-1 prompt (as its exact tail)
and into the stage-2 prompt (as a contiguous substring), for any stage-1
text `qs`.  No trimming beyond the emptiness check exists in the source. -/
theorem c9_whitespace_topic_runs (k t qs : String) (ep : Endpoint)
    (ht : t.isEmpty = false)
    (_hws : (t.data.all fun c => c.isWhitespace) = true) :
    (runPipeline k t ep).1.head? = some (stage1Request k t) ∧
    stage1Prompt t =
      "Suggest a list of 5 most important questions to research on the topic: "
        ++ t ∧
    ContainsVerbatim (stage1Prompt t) t ∧
    ContainsVerbatim (research_prompt t qs) t := by
  refine ⟨?_, rfl, ?_, ?_⟩
  · rcases h1 : ep (stage1Request k t) with e | q
    · simp [runPipeline, ht, h1]
    · rcases h2 : ep (stage2Request k t q) with e | a <;>
        simp [runPipeline, ht, h1, h2]
  · exact ⟨"Suggest a list of 5 most important questions to research on the topic: ",
      "", by simp [stage1Prompt]⟩
  · exact ⟨"Based on these questions about ",
      ":\n" ++ qs ++ "\n\n" ++ analysisTemplate,
      by simp [research_prompt, String.append_assoc]⟩

/-- Witness for C9 at the whitespace-only topic `" "`. -/
theorem c9_witness :
    (runPipeline "k" " " (stubEndpoint "Q" "A")).1.head? =
      some (stage1Request "k" " ") ∧
    stage1Prompt " " =
      "Suggest a list of 5 most important questions to research on the topic: "
        ++ " " ∧
    ContainsVerbatim (stage1Prompt " ") " " ∧
    ContainsVerbatim (research_prompt " " "Q") " " :=
  c9_whitespace_topic_runs "k" " " "Q" (stubEndpoint "Q" "A") rfl (by decide)

/-- Claim C10: the credential never reaches the chat payload.  For two runs
with the same topic against an endpoint whose answers depend only on the
payload (messages, model, temperature) — i.e. the same endpoint responses —
the message payloads of all issued requests are identical whatever the two
credentials are. -/
theorem c10_payload_credential_independent (k1 k2 t : String) (ep : Endpoint)
    (hep : ∀ r1 r2 : ChatRequest, r1.messages = r2.messages →
        r1.model = r2.model → r1.temperature = r2.temperature →
        ep r1 = ep r2) :
    (runPipeline k1 t ep).1.map ChatRequest.messages =
      (runPipeline k2 t ep).1.map ChatRequest.messages := by
  by_cases ht : t.isEmpty = true
  · simp [runPipeline, ht]
  · have e1 : ep (stage1Request k1 t) = ep (stage1Request k2 t) :=
      hep _ _ rfl rfl rfl
    rcases h1 : ep (stage1Request k2 t) with e | qs
    · simp [runPipeline, ht, h1, e1.trans h1]
      simp [stage1Request]
    · have e2 : ep (stage2Request k1 t qs) = ep (stage2Request k2 t qs) :=
        hep _ _ rfl rfl rfl
      rcases h2 : ep (stage2Request k2 t qs) with e | a <;>
        simp [runPipeline, ht, h1, h2, e1.trans h1, e2.trans h2] <;>
        simp [stage1Request, stage2Request]

/-- Witness for C10 with two distinct credentials, topic `"T"` and a stub
endpoint keyed only on the temperature of the payload. -/
theorem c10_witness :
    (runPipeline "k1" "T" (stubEndpoint "Q" "A")).1.map ChatRequest.messages =
      (runPipeline "k2" "T" (stubEndpoint "Q" "A")).1.map
        ChatRequest.messages :=
  c10_payload_credential_independent "k1" "k2" "T" (stubEndpoint "Q" "A")
    (fun r1 r2 _ _ htemp => by simp [stubEndpoint, htemp])

end GroqDeepseek
